import Mathlib

/-!
Verification development for the drand randomness-beacon node (packages
`core` and `main` of the repository). The Go source under `src/core/client.go`,
`src/core/drand.go` and `src/main.go` is embedded shallowly: pure control flow
becomes Lean functions, the mutable fields of the `Drand` struct become an
explicit state record driven by an event list, and calls into packages of the
repository that are not part of the given sources (`beacon`, `key`, `ecies`,
`dkg`, `net`, `fs`) are either taken as function parameters or modelled from
the specification, as marked on each definition.
-/

/-- Byte strings are lists of byte values. -/
abbrev Bytes := List Nat

/-- Stand-in for `kyber.Point` (external curve library): an abstract point value. -/
abbrev Point := Nat

/-- Big-endian encoding of a 64-bit round counter, one entry per byte. -/
def beU64 (n : Nat) : Bytes :=
  [n / 2 ^ 56 % 256, n / 2 ^ 48 % 256, n / 2 ^ 40 % 256, n / 2 ^ 32 % 256,
   n / 2 ^ 24 % 256, n / 2 ^ 16 % 256, n / 2 ^ 8 % 256, n % 256]

/-- Modelled from the spec: `beacon.Message` (package `beacon` is not under src/).
The round message is `M(round, prev) := BE_u64(round) || prev`; `client.go`
calls it as `beacon.Message(previous, round)`. -/
def Message (prev : Bytes) (round : Nat) : Bytes :=
  beU64 round ++ prev

/-- Modelled from the spec: `key.DistPublic` (package `key` is not under src/).
A polynomial commitment; its constant term `key` is the group public key used
to verify aggregate signatures (field `Key` in Go). -/
structure DistPublic where
  key : Point
deriving DecidableEq

/-- Modelled from the spec: `key.Share` (package `key` is not under src/).
The node's private scalar with its index; `Share.Public()` returns the
distributed public key commitment. -/
structure Share where
  index : Nat
  scalar : Nat
  distPublic : DistPublic
deriving DecidableEq

/-- Go method `key.Share.Public`, returning the distributed public key. -/
def Share.Public (s : Share) : DistPublic :=
  s.distPublic

/-- The protobuf `drand.PublicRandResponse`: fields in the order the Go literal
in `Drand.Public` fills them (Previous, Round, Randomness). -/
structure PublicRandResponse where
  previous : Bytes
  round : Nat
  randomness : Bytes
deriving DecidableEq

/-- A beacon record as `Drand.Public` reads it from the store
(`beacon.Beacon` fields `PreviousRand`, `Round`, `Randomness`). -/
structure Beacon where
  previousRand : Bytes
  round : Nat
  randomness : Bytes
deriving DecidableEq

/-- Error returned to a client by `Client.LastPublic`: either the transport
error of `client.Public`, or the non-nil error of `bls.Verify`. -/
inductive ClientErr where
  | fetch (e : String)
  | blsVerifyFailed
deriving DecidableEq

/-- Embeds `Client.verify` (client.go:80-83): build the round message from the
response's previous and round fields and BLS-verify the randomness field under
`public`. `bls.Verify` is external (kyber), so the verifier is a parameter; the
Go error result becomes `none` for nil. -/
def Client.verify (blsVerify : Point → Bytes → Bytes → Bool) (public : Point)
    (resp : PublicRandResponse) : Option ClientErr :=
  if blsVerify public (Message resp.previous resp.round) resp.randomness then none
  else some ClientErr.blsVerifyFailed

/-- Embeds `Client.LastPublic` (client.go:50-56). The RPC fetch outcome is a
parameter. On fetch error the Go code returns `nil, err`; on success it
returns `resp, c.verify(pub.Key, resp)` — the response together with the
verification outcome. The pair components model the two Go return values. -/
def Client.LastPublic (blsVerify : Point → Bytes → Bytes → Bool)
    (pub : DistPublic) (fetched : Except String PublicRandResponse) :
    Option PublicRandResponse × Option ClientErr :=
  match fetched with
  | Except.error e => (none, some (ClientErr.fetch e))
  | Except.ok resp => (some resp, Client.verify blsVerify pub.key resp)

/-- A BLS verifier that rejects every signature (used to exhibit behaviour of
`Client.LastPublic` on a response that fails verification). -/
def rejectAllVerifier : Point → Bytes → Bytes → Bool :=
  fun _ _ _ => false

/-- A BLS verifier that accepts every signature. -/
def acceptAllVerifier : Point → Bytes → Bytes → Bool :=
  fun _ _ _ => true

/-- The protobuf `drand.BeaconRequest` (round and previous randomness). -/
structure BeaconRequest where
  round : Nat
  previousRand : Bytes
deriving DecidableEq

/-- The protobuf `drand.BeaconResponse`: a partial signature with the signer
index. Its content is opaque to the facade. -/
structure BeaconResponse where
  sigPart : Bytes
  index : Nat
deriving DecidableEq

/-- The protobuf `dkg.DKGPacket`, opaque to the facade. -/
structure DKGPacket where
  opaque_data : Bytes
deriving DecidableEq

/-- The protobuf `dkg.DKGResponse`: the empty message `Drand.Setup` returns. -/
structure DKGResponse where
deriving DecidableEq

/-- A `beacon.Handler` value as the facade uses it: what matters to the facade
is its `ProcessBeacon` behaviour, so the handler is represented by that
function. -/
structure BeaconHandler where
  processBeacon : BeaconRequest → Except String BeaconResponse

/-- The mutable fields of the Go `Drand` struct that the claims concern:
the DKG-done flag, the beacon handler pointer (`nil` = `none`) and the DKG
private share pointer. -/
structure Drand where
  dkgDone : Bool
  beacon : Option BeaconHandler
  share : Option Share

/-- The state `initDrand` leaves behind (drand.go:76-80), shared by `NewDrand`
and `LoadDrand`: DKG not done, no beacon handler, no share. -/
def initialDrand : Drand :=
  { dkgDone := false, beacon := none, share := none }

/-- Embeds `Drand.isDKGDone` (drand.go:252-256): reads the flag under the
state mutex. -/
def Drand.isDKGDone (d : Drand) : Bool :=
  d.dkgDone

/-- Embeds `Drand.initBeacon` (drand.go:258-270) as a state transformer. The
flag is set first; only when `beacon.NewBoltStore` succeeds (`storeOk`) is the
handler assigned, so a store failure leaves the flag set with a nil handler. -/
def Drand.initBeacon (d : Drand) (h : BeaconHandler) (storeOk : Bool) : Drand :=
  let d := { d with dkgDone := true }
  if storeOk then { d with beacon := some h } else d

/-- The state-mutating entry points of the Go `Drand`, as events: `initBeacon`
as called by `LoadDrand` (with the handler the call would build and whether
the bolt store opened), the share branch of `WaitDKG` (which stores the share
and then calls `initBeacon`), the error branch of `WaitDKG`, and `Stop`. -/
inductive Event where
  | initBeaconEv (h : BeaconHandler) (storeOk : Bool)
  | waitDKGShare (s : Share) (h : BeaconHandler) (storeOk : Bool)
  | waitDKGError (e : String)
  | stopEv

/-- One event applied to the `Drand` state, following drand.go. -/
def applyEvent (d : Drand) : Event → Drand
  | Event.initBeaconEv h storeOk => d.initBeacon h storeOk
  | Event.waitDKGShare s h storeOk => Drand.initBeacon { d with share := some s } h storeOk
  | Event.waitDKGError _ => d
  | Event.stopEv => d

/-- The `Drand` state after a sequence of events from `initialDrand`. -/
def runEvents (d : Drand) (evs : List Event) : Drand :=
  evs.foldl applyEvent d

/-- A state is reachable when some event sequence from the freshly initialized
node produces it. -/
def ReachableDrand (d : Drand) : Prop :=
  ∃ evs : List Event, runEvents initialDrand evs = d

/-- Embeds `Drand.Setup` (drand.go:223-229). The first component is the packet
handed to `d.dkg.Process` (`none` when the packet is not forwarded); the second
is the Go return pair collapsed into `Except`. -/
def Drand.Setup (d : Drand) (pkt : DKGPacket) :
    Option DKGPacket × Except String DKGResponse :=
  if d.isDKGDone then (none, Except.error "drand: dkg finished already")
  else (some pkt, Except.ok {})

/-- Outcome of a `Drand.NewBeacon` call: the wrong-phase error, the Go `panic`
taken when the handler is nil after DKG-done, or delegation to the handler's
`ProcessBeacon` with its result returned unchanged. -/
inductive NewBeaconResult where
  | err (msg : String)
  | panicked
  | delegated (res : Except String BeaconResponse)

/-- Embeds `Drand.NewBeacon` (drand.go:231-239). -/
def Drand.NewBeacon (d : Drand) (req : BeaconRequest) : NewBeaconResult :=
  if !d.isDKGDone then NewBeaconResult.err "drand: dkg not finished"
  else
    match d.beacon with
    | none => NewBeaconResult.panicked
    | some h => NewBeaconResult.delegated (h.processBeacon req)

/-- A concrete beacon handler whose `ProcessBeacon` echoes a fixed response
(used to instantiate the state machine at concrete inputs). -/
def echoHandler : BeaconHandler :=
  { processBeacon := fun req => Except.ok { sigPart := req.previousRand, index := 0 } }

/-- Errors of the beacon store's `Last` (package `beacon`, modelled from the
spec: either the sentinel `beacon.ErrNoBeaconSaved` for an empty store, or any
other storage error). -/
inductive LastErr where
  | noBeaconSaved
  | other (e : String)
deriving DecidableEq

/-- The error `Drand.Public` returns: the store error wrapped by
`fmt.Errorf("can..t retrieve beacon: %s", err)`. -/
inductive PublicErr where
  | cantRetrieveBeacon (e : LastErr)
deriving DecidableEq

/-- Embeds `Drand.Public` (drand.go:177-187). The outcome of
`d.beaconStore.Last()` is a parameter; on success the response carries the
beacon's fields, on failure the wrapped error is returned and no response. -/
def Drand.Public (lastRes : Except LastErr Beacon) :
    Except PublicErr PublicRandResponse :=
  match lastRes with
  | Except.error e => Except.error (PublicErr.cantRetrieveBeacon e)
  | Except.ok b =>
      Except.ok { previous := b.previousRand, round := b.round, randomness := b.randomness }

/-- The fixed genesis seed `core.DefaultSeed` (drand.go:145), the UTF-8 bytes
of the 79-character sentence in the Go source. -/
def DefaultSeed : Bytes :=
  [84, 114, 117, 116, 104, 32, 105, 115, 32, 108, 105, 107, 101, 32, 116, 104,
   101, 32, 115, 117, 110, 46, 32, 89, 111, 117, 32, 99, 97, 110, 32, 115, 104,
   117, 116, 32, 105, 116, 32, 111, 117, 116, 32, 102, 111, 114, 32, 97, 32,
   116, 105, 109, 101, 44, 32, 98, 117, 116, 32, 105, 116, 32, 97, 105, 110,
   39, 116, 32, 103, 111, 105, 110, 39, 32, 97, 119, 97, 121, 46]

/-- The arguments `Drand.BeaconLoop` passes to `d.beacon.Loop` (the handler's
loop, package `beacon`): seed, period and catch-up flag. -/
structure LoopArgs where
  seed : Bytes
  period : Nat
  catchup : Bool
deriving DecidableEq

/-- Embeds `Drand.BeaconLoop` (drand.go:153-175). `catchup` starts `true`; a
`Last()` error that is `ErrNoBeaconSaved` clears it, any other error returns
without starting the loop (`none`); otherwise `d.beacon.Loop(DefaultSeed,
d.opts.beaconPeriod, catchup)` is started with the arguments returned here. -/
def Drand.BeaconLoop (lastRes : Except LastErr Beacon) (beaconPeriod : Nat) :
    Option LoopArgs :=
  match lastRes with
  | Except.ok _ => some { seed := DefaultSeed, period := beaconPeriod, catchup := true }
  | Except.error LastErr.noBeaconSaved =>
      some { seed := DefaultSeed, period := beaconPeriod, catchup := false }
  | Except.error (LastErr.other _) => none

/-- The group descriptor as `WaitDKG` persists it (`key.Group`, modelled from
the spec: an ordered list of identity indices and a threshold). -/
structure KeyGroup where
  nodes : List Nat
  threshold : Nat
deriving DecidableEq

/-- One persistence step of the key store or beacon initialization, in the
order `WaitDKG` performs them. -/
inductive PersistOp where
  | saveShare (s : Share)
  | saveDistPublic (p : DistPublic)
  | saveGroup (g : KeyGroup)
  | initBeaconCall
deriving DecidableEq

/-- The key store as `WaitDKG` sees it (`key.Store`, modelled from the spec),
with an append-only log recording every persistence call in order. -/
structure KeyStore where
  savedShare : Option Share
  savedDistPublic : Option DistPublic
  savedGroup : Option KeyGroup
  log : List PersistOp
deriving DecidableEq

/-- `key.Store.SaveShare`, recorded in the log. -/
def KeyStore.SaveShare (st : KeyStore) (s : Share) : KeyStore :=
  { st with savedShare := some s, log := st.log ++ [PersistOp.saveShare s] }

/-- `key.Store.SaveDistPublic`, recorded in the log. -/
def KeyStore.SaveDistPublic (st : KeyStore) (p : DistPublic) : KeyStore :=
  { st with savedDistPublic := some p, log := st.log ++ [PersistOp.saveDistPublic p] }

/-- `key.Store.SaveGroup`, recorded in the log. -/
def KeyStore.SaveGroup (st : KeyStore) (g : KeyGroup) : KeyStore :=
  { st with savedGroup := some g, log := st.log ++ [PersistOp.saveGroup g] }

/-- The `initBeacon` call at the end of `WaitDKG`, recorded in the log. -/
def KeyStore.MarkInitBeacon (st : KeyStore) : KeyStore :=
  { st with log := st.log ++ [PersistOp.initBeaconCall] }

/-- What the DKG sub-protocol delivers to `WaitDKG`: a share on
`d.dkg.WaitShare()` or an error on `d.dkg.WaitError()`. -/
inductive DKGOutcome where
  | shareOut (s : Share)
  | errorOut (e : String)
deriving DecidableEq

/-- Embeds `Drand.WaitDKG` (drand.go:127-143) over the key store. On an error
outcome the function returns that error with the store untouched; on a share
it saves the share, then the distributed public key `share.Public()`, then the
group, then calls `initBeacon` (whose own result `ibErr` is returned). -/
def Drand.WaitDKG (o : DKGOutcome) (g : KeyGroup) (ibErr : Option String)
    (st : KeyStore) : KeyStore × Option String :=
  match o with
  | DKGOutcome.errorOut e => (st, some e)
  | DKGOutcome.shareOut s =>
      ((((st.SaveShare s).SaveDistPublic s.Public).SaveGroup g).MarkInitBeacon, ibErr)

/-- The environment of external calls `Drand.Private` makes, over abstract
types: `P` curve points, `Q` the incoming ECIES request object, `M` decrypted
plaintexts, `R` the randomness buffer, `C` the outgoing ciphertext.
`parseEphemeral` is `crypto.ProtoToKyberPoint` applied to the request's
ephemeral point; `groupStringOf` returns `groupable.Group().String()` when the
point's type implements `kyber.Groupable` and `none` otherwise; `g2String` is
`key.G2.String()`; `eciesDecrypt` is `ecies.Decrypt` with the server's
long-term private key; `unmarshalPoint` is `UnmarshalBinary` on a fresh G2
point; `randRead` is `rand.Read` on a 32-byte buffer, returning the byte count
read and the buffer; `eciesEncrypt` is `ecies.Encrypt` to the client key. -/
structure PrivateEnv (P Q M R C : Type) where
  parseEphemeral : Q → Except String P
  groupStringOf : P → Option String
  g2String : String
  eciesDecrypt : Q → Except String M
  unmarshalPoint : M → Except String P
  randRead : Except String (Nat × R)
  eciesEncrypt : P → R → C

/-- The protobuf `drand.PrivateRandResponse`, wrapping the reply ciphertext. -/
structure PrivateRandResponse (C : Type) where
  response : C

/-- Embeds `Drand.Private` (drand.go:189-221): parse the ephemeral point,
check it is on a registered curve and on the supported group `key.G2`,
ECIES-decrypt the request, unmarshal the recovered client key, read 32 bytes
of OS randomness (rejecting a short or failed read), and return those bytes
ECIES-encrypted to the client key. Each error message is the Go one. -/
def Drand.Private {P Q M R C : Type} (env : PrivateEnv P Q M R C) (req : Q) :
    Except String (PrivateRandResponse C) :=
  match env.parseEphemeral req with
  | Except.error e => Except.error e
  | Except.ok point =>
      match env.groupStringOf point with
      | none => Except.error "point is not on a registered curve"
      | some gs =>
          if gs ≠ env.g2String then Except.error "point is not on the supported curve"
          else
            match env.eciesDecrypt req with
            | Except.error _ => Except.error "invalid ECIES request"
            | Except.ok msg =>
                match env.unmarshalPoint msg with
                | Except.error _ => Except.error "invalid client key"
                | Except.ok clientKey =>
                    match env.randRead with
                    | Except.error _ => Except.error "error gathering randomness"
                    | Except.ok (n, randomness) =>
                        if n ≠ 32 then Except.error "error gathering randomness"
                        else Except.ok { response := env.eciesEncrypt clientKey randomness }

/-- Modelled from the spec: the order of the pairing group the protocol signs
in (package `key` fixes `G2` of the bn256 pairing suite; the curve library is
external). Scalars and points are modelled in `ZMod` of this order, a point
represented by its discrete logarithm to the fixed generator. -/
def groupOrder : Nat :=
  65000549695646603732796438742359905742570406053903786389881062969044166799969

instance : NeZero groupOrder := ⟨by decide⟩

/-- A scalar of the modelled group. -/
abbrev ECScalar := ZMod groupOrder

/-- A point of the modelled group, as its generator exponent. -/
abbrev ECPoint := ZMod groupOrder

/-- The fixed generator (`key.G2.Point().Base()`), exponent 1. -/
def pointBase : ECPoint := 1

/-- Scalar multiplication `Point().Mul(s, p)` in the exponent model. -/
def pointMul (s : ECScalar) (p : ECPoint) : ECPoint := s * p

/-- `MarshalBinary` of a point: its canonical numeral. -/
def marshalPoint (p : ECPoint) : Nat := ZMod.val p

/-- `UnmarshalBinary` of a point from its canonical numeral. -/
def unmarshalPoint (m : Nat) : ECPoint := (m : ECPoint)

/-- Modelled from the spec: an ECIES ciphertext of package `ecies` (not under
src/) — the ephemeral Diffie-Hellman public point and the symmetric part,
the plaintext masked with the key stream derived from the shared point. -/
structure EciesCipher where
  ephKey : ECPoint
  cipherText : Nat

/-- Modelled from the spec: `ecies.Encrypt` over the exponent model. A fresh
ephemeral scalar `r` yields the ephemeral point `r·G`; the plaintext is masked
(xor) with `kdf` of the shared point `r·pub`. -/
def eciesEncrypt (kdf : ECPoint → Nat) (pub : ECPoint) (r : ECScalar)
    (msg : Nat) : EciesCipher :=
  { ephKey := pointMul r pointBase, cipherText := msg ^^^ kdf (pointMul r pub) }

/-- Modelled from the spec: `ecies.Decrypt` over the exponent model — unmask
with `kdf` of `priv · ephKey`. -/
def eciesDecrypt (kdf : ECPoint → Nat) (priv : ECScalar) (c : EciesCipher) : Nat :=
  c.cipherText ^^^ kdf (pointMul priv c.ephKey)

/-- Embeds `Client.Private` (client.go:62-78) over the exponent model:
generate the ephemeral pair, marshal the ephemeral point, ECIES-encrypt it to
the server identity key `idKey`, send it through `call` (the RPC to the
server), and ECIES-decrypt the reply with the ephemeral scalar. The fresh
scalars are parameters of the embedding. -/
def Client.Private (kdf : ECPoint → Nat) (idKey : ECPoint)
    (ephScalar r1 : ECScalar) (call : EciesCipher → Except String EciesCipher) :
    Except String Nat :=
  let ephPoint := pointMul ephScalar pointBase
  let ephBuff := marshalPoint ephPoint
  let obj := eciesEncrypt kdf idKey r1 ephBuff
  match call obj with
  | Except.error e => Except.error e
  | Except.ok resp => Except.ok (eciesDecrypt kdf ephScalar resp)

/-- The `PrivateEnv` of a server holding long-term private scalar
`serverPriv`, drawing `drawn` from its CSPRNG (a full 32-byte read) and using
ephemeral scalar `r2` for the reply encryption, with every external call
instantiated by the concrete ECIES model. -/
def concreteEciesEnv (kdf : ECPoint → Nat) (serverPriv r2 : ECScalar)
    (drawn : Nat) : PrivateEnv ECPoint EciesCipher Nat Nat EciesCipher :=
  { parseEphemeral := fun req => Except.ok req.ephKey
    groupStringOf := fun _ => some "bn256.G2"
    g2String := "bn256.G2"
    eciesDecrypt := fun req => Except.ok (eciesDecrypt kdf serverPriv req)
    unmarshalPoint := fun m => Except.ok (unmarshalPoint m)
    randRead := Except.ok (32, drawn)
    eciesEncrypt := fun clientKey rnd => eciesEncrypt kdf clientKey r2 rnd }

/-- The complete private-randomness exchange: the client side of client.go
composed with the server side of drand.go, both legs running over the
concrete ECIES model with the server's public key `serverPriv · G`. -/
def privateExchange (kdf : ECPoint → Nat) (serverPriv ephScalar r1 r2 : ECScalar)
    (drawn : Nat) : Except String Nat :=
  Client.Private kdf (pointMul serverPriv pointBase) ephScalar r1 fun obj =>
    (Drand.Private (concreteEciesEnv kdf serverPriv r2 drawn) obj).map
      PrivateRandResponse.response

/-- The CLI flag values `contextToConfig` (main.go:405-444) can read from the
`cli.Context`, plus the `seed` flag that main.go declares on the `beacon` and
`run` commands. `tlsCertSet`, `tlsKeySet` and `certsDirSet` are the
`c.IsSet(...)` results; `certsDirFiles` is what `fs.Files` lists there. -/
structure CLIContext where
  listen : String
  config : String
  db : String
  period : Nat
  insecure : Bool
  tlsCert : String
  tlsKey : String
  tlsCertSet : Bool
  tlsKeySet : Bool
  certsDirSet : Bool
  certsDirFiles : List String
  seed : String
deriving DecidableEq

/-- The `core.ConfigOption` constructors `contextToConfig` uses (package
`core`'s config file is not under src/; each option is kept symbolic). -/
inductive ConfigOption where
  | withListenAddress (a : String)
  | withConfigFolder (f : String)
  | withDbFolder (f : String)
  | withBeaconPeriod (p : Nat)
  | withInsecure
  | withTLS (certPath keyPath : String)
  | withTrustedCerts (paths : List String)
deriving DecidableEq

/-- Result of `contextToConfig`: the option list handed to `core.NewConfig`,
or the Go `panic` taken when `insecure` is combined with TLS flags. -/
inductive CtxConfig where
  | ok (opts : List ConfigOption)
  | panicked (msg : String)
deriving DecidableEq

/-- Embeds `contextToConfig` (main.go:405-444): listen, config folder, db
folder and period options, then insecure or TLS, then trusted certs when
`certs-dir` is set. The second `c.IsSet("certs-dir")` block of the Go code
discards the option it builds, so it adds nothing. The `seed` flag is never
read. -/
def contextToConfig (c : CLIContext) : CtxConfig :=
  let opts := if c.listen ≠ "" then [ConfigOption.withListenAddress c.listen] else []
  let opts := opts ++ [ConfigOption.withConfigFolder c.config]
  let opts := opts ++ [ConfigOption.withDbFolder (c.config ++ "/" ++ c.db)]
  let opts := opts ++ [ConfigOption.withBeaconPeriod c.period]
  if c.insecure && (c.tlsCertSet || c.tlsKeySet) then
    CtxConfig.panicked "option insecure used with tls-cert or tls-key: combination is not valid"
  else
    let opts := opts ++ (if c.insecure then [ConfigOption.withInsecure]
                         else [ConfigOption.withTLS c.tlsCert c.tlsKey])
    let opts := opts ++ (if c.certsDirSet then [ConfigOption.withTrustedCerts c.certsDirFiles] else [])
    CtxConfig.ok opts

/-- C2: on a share from the DKG, `WaitDKG` persists the share, then the
distributed public key, then the group descriptor, then calls `initBeacon`,
in exactly that order, returning `initBeacon`'s result; on a DKG error it
returns that error with the store untouched. -/
theorem c2_waitdkg_order (g : KeyGroup) (ibErr : Option String) (st : KeyStore) :
    (∀ e, Drand.WaitDKG (DKGOutcome.errorOut e) g ibErr st = (st, some e))
    ∧ ∀ s, (Drand.WaitDKG (DKGOutcome.shareOut s) g ibErr st).1.log
          = st.log ++ [PersistOp.saveShare s, PersistOp.saveDistPublic s.Public,
                       PersistOp.saveGroup g, PersistOp.initBeaconCall]
        ∧ (Drand.WaitDKG (DKGOutcome.shareOut s) g ibErr st).2 = ibErr := by
  refine ⟨fun e => rfl, fun s => ⟨?_, rfl⟩⟩
  simp [Drand.WaitDKG, KeyStore.SaveShare, KeyStore.SaveDistPublic,
    KeyStore.SaveGroup, KeyStore.MarkInitBeacon]

/-- C3: a `Setup` call after the DKG-done flag is set returns an error without
forwarding the packet to the DKG handler; while the DKG is not done the packet
is forwarded and the empty response is returned with no error. -/
theorem c3_setup_gating (d : Drand) (pkt : DKGPacket) :
    (d.isDKGDone = true → d.Setup pkt = (none, Except.error "drand: dkg finished already"))
    ∧ (d.isDKGDone = false → d.Setup pkt = (some pkt, Except.ok {})) := by
  constructor <;> intro h <;> simp [Drand.Setup, h]

/-- C5: `Public` answers with exactly the last stored beacon's round, previous
randomness and randomness, and returns the wrapped store error with no
response when `last()` fails (in particular on an empty store). -/
theorem c5_public_last_beacon :
    (∀ b : Beacon, Drand.Public (Except.ok b)
        = Except.ok { previous := b.previousRand, round := b.round, randomness := b.randomness })
    ∧ ∀ e : LastErr, Drand.Public (Except.error e)
        = Except.error (PublicErr.cantRetrieveBeacon e) :=
  ⟨fun _ => rfl, fun _ => rfl⟩

/-- C8: `BeaconLoop` starts the handler loop in catch-up mode exactly when
`Last()` returns a beacon, starts it without catch-up when no beacon is saved
yet, and on any other store error returns without starting the loop. -/
theorem c8_beaconloop_catchup :
    (∀ (b : Beacon) (p : Nat), Drand.BeaconLoop (Except.ok b) p
        = some { seed := DefaultSeed, period := p, catchup := true })
    ∧ (∀ p : Nat, Drand.BeaconLoop (Except.error LastErr.noBeaconSaved) p
        = some { seed := DefaultSeed, period := p, catchup := false })
    ∧ ∀ (e : String) (p : Nat), Drand.BeaconLoop (Except.error (LastErr.other e)) p = none :=
  ⟨fun _ _ => rfl, fun _ => rfl, fun _ _ => rfl⟩

/-- C1 (amended): for every response `LastPublic` returns, the accompanying
error is nil exactly when BLS verification under the group public key of the
round message built from the response's previous and round fields succeeds
against its randomness field; a response failing verification is returned
together with a non-nil error rather than being withheld. -/
theorem c1_lastpublic_error_iff_verify (vf : Point → Bytes → Bytes → Bool)
    (pub : DistPublic) (fetched : Except String PublicRandResponse)
    (resp : PublicRandResponse)
    (h : (Client.LastPublic vf pub fetched).1 = some resp) :
    (Client.LastPublic vf pub fetched).2 = none
      ↔ vf pub.key (Message resp.previous resp.round) resp.randomness = true := by
  cases fetched with
  | error e => simp [Client.LastPublic] at h
  | ok r =>
      simp only [Client.LastPublic, Option.some.injEq] at h
      rw [← h]
      simp only [Client.LastPublic, Client.verify]
      by_cases hv : vf pub.key (Message r.previous r.round) r.randomness <;> simp [hv]

/-- Concrete instance of `c1_lastpublic_error_iff_verify`: with a verifier
that accepts, a fetched response comes back with a nil error. -/
theorem c1_lastpublic_witness :
    (Client.LastPublic acceptAllVerifier { key := 0 }
        (Except.ok { previous := [1], round := 2, randomness := [3] })).2 = none
      ↔ acceptAllVerifier 0 (Message [1] 2) [3] = true :=
  c1_lastpublic_error_iff_verify acceptAllVerifier { key := 0 }
    (Except.ok { previous := [1], round := 2, randomness := [3] })
    { previous := [1], round := 2, randomness := [3] } rfl

/-- C1 counterexample: under a verifier that rejects this response, the Go
code `return resp, c.verify(pub.Key, resp)` still returns the fetched
response, alongside the non-nil error, not an error instead of the response. -/
theorem c1_lastpublic_counterexample :
    Client.LastPublic rejectAllVerifier { key := 0 }
        (Except.ok { previous := [1], round := 2, randomness := [3] })
      = (some { previous := [1], round := 2, randomness := [3] },
         some ClientErr.blsVerifyFailed)
    ∧ rejectAllVerifier 0 (Message [1] 2) [3] = false :=
  ⟨rfl, rfl⟩

/-- C4 (amended): a `NewBeacon` call while the DKG-done flag is not set
returns an error without touching the beacon handler; after DKG-done with a
non-nil handler the request is delegated to `ProcessBeacon` and its result
returned unchanged; after DKG-done with a nil handler the call panics. -/
theorem c4_newbeacon_gating (d : Drand) (req : BeaconRequest) :
    (d.isDKGDone = false → d.NewBeacon req = NewBeaconResult.err "drand: dkg not finished")
    ∧ (∀ h, d.isDKGDone = true → d.beacon = some h →
        d.NewBeacon req = NewBeaconResult.delegated (h.processBeacon req))
    ∧ (d.isDKGDone = true → d.beacon = none →
        d.NewBeacon req = NewBeaconResult.panicked) := by
  refine ⟨fun hno => ?_, fun h hyes hb => ?_, fun hyes hb => ?_⟩
  · simp [Drand.NewBeacon, hno]
  · simp [Drand.NewBeacon, hyes, hb]
  · simp [Drand.NewBeacon, hyes, hb]

/-- C4 counterexample: after a failed `initBeacon` (bolt-store error) the
DKG-done flag is set yet `NewBeacon` panics instead of delegating to the
beacon handler, so not every call made after DKG-done is delegated. -/
theorem c4_newbeacon_counterexample :
    (runEvents initialDrand [Event.initBeaconEv echoHandler false]).isDKGDone = true
    ∧ (runEvents initialDrand [Event.initBeaconEv echoHandler false]).NewBeacon
        { round := 0, previousRand := [] } = NewBeaconResult.panicked :=
  ⟨rfl, rfl⟩

/-- `true` when the event carries no failing `beacon.NewBoltStore` call. -/
def Event.initOk : Event → Bool
  | Event.initBeaconEv _ storeOk => storeOk
  | Event.waitDKGShare _ _ storeOk => storeOk
  | Event.waitDKGError _ => true
  | Event.stopEv => true

/-- The DKG-done/handler invariant is preserved along any event fold whose
events all carry a successful store initialization. -/
theorem beacon_invariant_fold (evs : List Event) :
    ∀ d : Drand, (∀ e ∈ evs, e.initOk = true) →
      (d.dkgDone = true → d.beacon.isSome = true) →
      (runEvents d evs).dkgDone = true → (runEvents d evs).beacon.isSome = true := by
  induction evs with
  | nil => intro d _ hinv; exact hinv
  | cons e rest ih =>
      intro d hok hinv
      have hok' : ∀ x ∈ rest, x.initOk = true := fun x hx => hok x (List.mem_cons_of_mem _ hx)
      have he : e.initOk = true := hok e (List.mem_cons_self _ _)
      have hstep : runEvents d (e :: rest) = runEvents (applyEvent d e) rest := rfl
      rw [hstep]
      refine ih (applyEvent d e) hok' ?_
      cases e with
      | initBeaconEv h storeOk =>
          simp only [Event.initOk] at he
          subst he
          intro _
          simp [applyEvent, Drand.initBeacon]
      | waitDKGShare s h storeOk =>
          simp only [Event.initOk] at he
          subst he
          intro _
          simp [applyEvent, Drand.initBeacon]
      | waitDKGError msg => exact hinv
      | stopEv => exact hinv

/-- C9 (amended): after every event sequence in which each `initBeacon` call
succeeded, `isDKGDone() = true` implies the beacon handler is non-nil, so the
panic in `NewBeacon` is not taken on such runs; a failed `initBeacon` escapes
the invariant (see the counterexample). -/
theorem c9_dkgdone_handler_invariant (evs : List Event)
    (hok : ∀ e ∈ evs, e.initOk = true)
    (hdone : (runEvents initialDrand evs).isDKGDone = true) :
    (runEvents initialDrand evs).beacon.isSome = true :=
  beacon_invariant_fold evs initialDrand hok
    (by intro hfalse; simp [initialDrand] at hfalse) hdone

/-- Concrete instance of `c9_dkgdone_handler_invariant`: after a successful
DKG share delivery the handler is present. -/
theorem c9_invariant_witness :
    (runEvents initialDrand
        [Event.waitDKGShare { index := 0, scalar := 0, distPublic := { key := 0 } }
          echoHandler true]).beacon.isSome = true :=
  c9_dkgdone_handler_invariant
    [Event.waitDKGShare { index := 0, scalar := 0, distPublic := { key := 0 } }
      echoHandler true]
    (by
      intro e he
      simp only [List.mem_singleton] at he
      subst he
      rfl)
    rfl

/-- C9 counterexample: the state left by a failed `initBeacon` is reachable,
reports `isDKGDone() = true`, and has a nil beacon handler, so the panic in
`NewBeacon` is reachable. -/
theorem c9_invariant_counterexample :
    ReachableDrand { dkgDone := true, beacon := none, share := none }
    ∧ Drand.isDKGDone { dkgDone := true, beacon := none, share := none } = true
    ∧ ({ dkgDone := true, beacon := none, share := none } : Drand).beacon = none :=
  ⟨⟨[Event.initBeaconEv echoHandler false], rfl⟩, rfl, rfl⟩

/-- C10: every loop start carries the fixed `DefaultSeed` as genesis seed, and
`contextToConfig` is independent of the `seed` flag (declared in main.go but
never read into the configuration), so no option changes the seed passed to
the handler loop. -/
theorem c10_seed_fixed (lastRes : Except LastErr Beacon) (p : Nat)
    (c : CLIContext) (s1 s2 : String) :
    (∀ a, Drand.BeaconLoop lastRes p = some a → a.seed = DefaultSeed)
    ∧ contextToConfig { c with seed := s1 } = contextToConfig { c with seed := s2 } := by
  constructor
  · intro a ha
    cases lastRes with
    | ok b =>
        simp only [Drand.BeaconLoop, Option.some.injEq] at ha
        rw [← ha]
    | error e =>
        cases e with
        | noBeaconSaved =>
            simp only [Drand.BeaconLoop, Option.some.injEq] at ha
            rw [← ha]
        | other msg => simp [Drand.BeaconLoop] at ha
  · rfl

/-- C6: the error paths and the success path of the `Private` RPC handler — a
point off a registered curve or off the supported group, a failing ECIES
decryption, a client key that does not unmarshal, a failed or short OS
randomness read each yield an error and no ciphertext; otherwise the drawn
bytes are returned ECIES-encrypted to the recovered client key. -/
theorem c6_private_request_handling {P Q M R C : Type}
    (env : PrivateEnv P Q M R C) (req : Q) :
    (∀ p, env.parseEphemeral req = Except.ok p → env.groupStringOf p = none →
        Drand.Private env req = Except.error "point is not on a registered curve")
    ∧ (∀ p gs, env.parseEphemeral req = Except.ok p → env.groupStringOf p = some gs →
        gs ≠ env.g2String →
        Drand.Private env req = Except.error "point is not on the supported curve")
    ∧ (∀ p e, env.parseEphemeral req = Except.ok p →
        env.groupStringOf p = some env.g2String → env.eciesDecrypt req = Except.error e →
        Drand.Private env req = Except.error "invalid ECIES request")
    ∧ (∀ p m e, env.parseEphemeral req = Except.ok p →
        env.groupStringOf p = some env.g2String → env.eciesDecrypt req = Except.ok m →
        env.unmarshalPoint m = Except.error e →
        Drand.Private env req = Except.error "invalid client key")
    ∧ (∀ p m ck e, env.parseEphemeral req = Except.ok p →
        env.groupStringOf p = some env.g2String → env.eciesDecrypt req = Except.ok m →
        env.unmarshalPoint m = Except.ok ck → env.randRead = Except.error e →
        Drand.Private env req = Except.error "error gathering randomness")
    ∧ (∀ p m ck n r, env.parseEphemeral req = Except.ok p →
        env.groupStringOf p = some env.g2String → env.eciesDecrypt req = Except.ok m →
        env.unmarshalPoint m = Except.ok ck → env.randRead = Except.ok (n, r) →
        n < 32 →
        Drand.Private env req = Except.error "error gathering randomness")
    ∧ (∀ p m ck r, env.parseEphemeral req = Except.ok p →
        env.groupStringOf p = some env.g2String → env.eciesDecrypt req = Except.ok m →
        env.unmarshalPoint m = Except.ok ck → env.randRead = Except.ok (32, r) →
        Drand.Private env req = Except.ok { response := env.eciesEncrypt ck r }) := by
  refine ⟨fun p h1 h2 => ?_, fun p gs h1 h2 h3 => ?_, fun p e h1 h2 h3 => ?_,
    fun p m e h1 h2 h3 h4 => ?_, fun p m ck e h1 h2 h3 h4 h5 => ?_,
    fun p m ck n r h1 h2 h3 h4 h5 h6 => ?_, fun p m ck r h1 h2 h3 h4 h5 => ?_⟩
  · simp [Drand.Private, h1, h2]
  · simp [Drand.Private, h1, h2, h3]
  · simp [Drand.Private, h1, h2, h3]
  · simp [Drand.Private, h1, h2, h3, h4]
  · simp [Drand.Private, h1, h2, h3, h4, h5]
  · have hne : n ≠ 32 := Nat.ne_of_lt h6
    simp [Drand.Private, h1, h2, h3, h4, h5, hne]
  · simp [Drand.Private, h1, h2, h3, h4, h5]

/-- ECIES decryption with the private scalar undoes encryption to the
matching public point: the shared points `r·(priv·G)` and `priv·(r·G)`
coincide, so the key stream cancels. -/
theorem ecies_roundtrip (kdf : ECPoint → Nat) (priv r : ECScalar) (m : Nat) :
    eciesDecrypt kdf priv (eciesEncrypt kdf (pointMul priv pointBase) r m) = m := by
  unfold eciesDecrypt eciesEncrypt pointMul pointBase
  rw [show priv * (r * 1) = r * (priv * 1) by ring]
  exact Nat.xor_cancel_right _ _

/-- Unmarshalling a marshalled point gives the point back. -/
theorem unmarshal_marshal (p : ECPoint) : unmarshalPoint (marshalPoint p) = p := by
  unfold unmarshalPoint marshalPoint
  exact ZMod.natCast_rightInverse p

/-- C7: the complete private-randomness exchange — client-side `Private`
composed with server-side `Private` over the concrete ECIES model — returns
to the client exactly the bytes the server drew, for every choice of long-term
key, ephemeral keys and key-derivation function. -/
theorem c7_private_exchange_roundtrip (kdf : ECPoint → Nat)
    (serverPriv ephScalar r1 r2 : ECScalar) (drawn : Nat) :
    privateExchange kdf serverPriv ephScalar r1 r2 drawn = Except.ok drawn := by
  have h1 : eciesDecrypt kdf serverPriv
      (eciesEncrypt kdf (pointMul serverPriv pointBase) r1
        (marshalPoint (pointMul ephScalar pointBase)))
      = marshalPoint (pointMul ephScalar pointBase) := ecies_roundtrip kdf serverPriv r1 _
  have h2 : unmarshalPoint (marshalPoint (pointMul ephScalar pointBase))
      = pointMul ephScalar pointBase := unmarshal_marshal _
  have h3 : eciesDecrypt kdf ephScalar
      (eciesEncrypt kdf (pointMul ephScalar pointBase) r2 drawn) = drawn :=
    ecies_roundtrip kdf ephScalar r2 drawn
  simp [privateExchange, Client.Private, Drand.Private, concreteEciesEnv,
    Except.map, h1, h2, h3]
